import Mathlib

/-!
Verification development for the Superset waterfall-chart data transform
(`plugins/plugin-chart-echarts/src/Waterfall/transformProps.ts`).

The transform is shallowly embedded below.  JS numbers are modelled as
integers (`Int`): no claim below depends on fractional cell values, sums and
differences of integer cells stay integral, and the one true division (the
tooltip's percent change) is computed exactly in `Rat` from its integer
inputs.  The distinguished JS values `undefined`, `null` and `NaN`
that flow through the series-building code are modelled explicitly as
constructors of `SVal`.  Input rows are association lists from column names to
cell values; per the spec's data model, a cell is a string, a number, or null,
and a missing key reads as `undefined`.

Reserved constants (`TOKEN`, `ASSIST_MARK`, `NULL_STRING`) live in a constants
module that is not part of the sources; they are modelled from the spec as
reserved markers (see the doc comments on each).
-/

namespace Waterfall

/-- An input cell value: per the spec's data model a row maps column names to
string, number, or null values. -/
inductive CellValue where
  | str (s : String)
  | num (q : Int)
  | nullv
  deriving DecidableEq, Repr

/-- An input row: a mapping from column name to value.  A key that is absent
reads as JS `undefined` (`getCell` returns `none`). -/
abbrev DataRecord := List (String × CellValue)

/-- Property read `row[k]`: `none` models JS `undefined` (missing key). -/
def getCell (r : DataRecord) (k : String) : Option CellValue :=
  List.lookup k r

/-- A value stored in an emitted series point.  `token` is the SENTINEL.
Modelled from the spec: `TOKEN` is "a reserved value meaning omit this
series' bar at this index" (the constants module is not under the sources),
so it is a marker distinct from every data value.  `undef` models JS
`undefined` (both a missing object property and a stored `undefined`), and
`nan` models JS `NaN`. -/
inductive SVal where
  | token
  | undef
  | nullv
  | nan
  | num (q : Int)
  | str (s : String)
  deriving DecidableEq, Repr

/-- Lift a raw cell read (`row[k]`, possibly `undefined`) into `SVal`. -/
def cellSV : Option CellValue → SVal
  | none => .undef
  | some .nullv => .nullv
  | some (.str s) => .str s
  | some (.num q) => .num q

/-- Modelled from the spec: the reserved null-placeholder string substituted
for missing/falsy category labels (`NULL_STRING` in the constants module,
which is not under the sources). -/
def NULL_STRING : String := "<NULL>"

/-- Modelled from the spec: the reserved name of the invisible assist series
(`ASSIST_MARK` in the constants module, which is not under the sources). -/
def ASSIST_MARK : String := "__assist__"

/-- Reads `(cell as number) ?? 0`: `null`/`undefined` default to `0`.
A string-valued cell would be carried into `+` by JS (string concatenation);
every theorem about numeric series content assumes metric cells are numeric
or absent (see the `metricCellOk`-style hypotheses), so the string branch is
never relied upon and is mapped to 0 here. -/
def asNumOr0 : Option CellValue → Int
  | some (.num q) => q
  | _ => 0

/-- Reads `Number(label && row[label] != null ? row[label] : 0)` (the
non-cumulative start/end read): absent or null cells default to `0`.  JS
would parse a string cell with `Number`; theorems about non-cumulative values
assume start/end cells are numeric or absent (`numCellOk`), so the string
branch is never relied upon and is mapped to 0 here. -/
def readNum (r : DataRecord) (k? : Option String) : Int :=
  match k? with
  | none => 0
  | some k =>
    match getCell r k with
    | some (.num q) => q
    | _ => 0

/-- Metric cell is not a string (its `?? 0` read then agrees with JS). -/
def metricCellOk (metricLabel : String) (r : DataRecord) : Bool :=
  match getCell r metricLabel with
  | some (.str _) => false
  | _ => true

/-- Metric cell is present and is a number or null (its raw read then behaves
numerically in JS, with null coercing to 0). -/
def metricCellStrict (metricLabel : String) (r : DataRecord) : Bool :=
  match getCell r metricLabel with
  | some (.num _) => true
  | some .nullv => true
  | _ => false

/-- Start/end cell under an optional column label is not a string. -/
def numCellOk (r : DataRecord) (k? : Option String) : Bool :=
  match k? with
  | none => true
  | some k =>
    match getCell r k with
    | some (.str _) => false
    | _ => true

/-- `Math.sign` on a (model) number. -/
def msign (q : Int) : Int :=
  if q < 0 then -1 else if 0 < q then 1 else 0

/-- JS unary minus on a stored series value: numbers negate, `null` gives
`-0` (modelled as 0), `undefined` and `NaN` give `NaN`.  Strings would be
coerced by JS `Number` first; they are excluded by the numeric-cell
hypotheses of every theorem that reaches this operation, and map to `NaN`. -/
def svNeg : SVal → SVal
  | .num q => .num (-q)
  | .nullv => .num 0
  | _ => .nan

/-- JS `value < 0` on a stored series value: `null < 0` and `NaN < 0` and
`undefined < 0` are all false.  A numeric string would coerce in JS; strings
are excluded by the numeric-cell hypotheses and map to false. -/
def svLt0 : SVal → Bool
  | .num q => q < 0
  | _ => false

/-- JS `value > 0`, used only for the assist-bar colour choice. -/
def svGt0 : SVal → Bool
  | .num q => 0 < q
  | _ => false

/-- `Math.sign(value) * (Math.abs(value) - Math.abs(previousTotal))`:
the sign-flip clipping.  `Math.sign(null) = 0` and `Math.abs(null) = 0`, so a
null value clips to 0; `undefined`/`NaN` propagate `NaN`; strings are
excluded by the numeric-cell hypotheses. -/
def svClip (v : SVal) (pt : Int) : SVal :=
  match v with
  | .num q => .num (msign q * (|q| - |pt|))
  | .nullv => .num 0
  | _ => .nan

/-- Chart configuration, holding exactly the resolved fields the series
builder reads: `xAxisName` (x-axis column), `breakdownName` (first groupby
column, if any), `metricLabel`, the optional start/end metric labels,
the non-cumulative toggle, `showTotal`, and `totalMark`
(`totalLabel || TOTAL_MARK`).  The two hex strings stand for the
`rgbToHex` results used to colour the assist bar on sign flips. -/
structure Config where
  xAxisName : String
  breakdownName : Option String := none
  metricLabel : String := ""
  metricStartLabel : Option String := none
  metricEndLabel : Option String := none
  nonCumulative : Bool := false
  showTotal : Bool := false
  totalMark : String := "Total"
  increaseHex : String := "#5AC189"
  decreaseHex : String := "#E04355"
  deriving DecidableEq, Repr

/-- `Boolean(nonCumulative && metricStartLabel && metricEndLabel)`. -/
def Config.useNonCumulative (cfg : Config) : Bool :=
  cfg.nonCumulative && cfg.metricStartLabel.isSome && cfg.metricEndLabel.isSome

/-- Row classification:
`(breakdownName && datum[breakdownName] === totalMark) || datum[xAxisName] === totalMark`. -/
def isTotalRow (cfg : Config) (r : DataRecord) : Bool :=
  (match cfg.breakdownName with
   | some bd => getCell r bd == some (.str cfg.totalMark)
   | none => false)
  || getCell r cfg.xAxisName == some (.str cfg.totalMark)

/-- An emitted series point.  Fields other than `value` default to
`undefined`, matching a JS object literal that omits them.  `color` models
`itemStyle.color` where the source sets one (the opacity override driven by
legend state is presentational and not modelled). -/
structure SeriesPoint where
  value : SVal
  originalValue : SVal := .undef
  totalSum : SVal := .undef
  start : SVal := .undef
  end_ : SVal := .undef
  color : Option String := none
  deriving DecidableEq, Repr

/-- The `{ value: TOKEN }` point. -/
def tokenPoint : SeriesPoint := { value := SVal.token }

/-- The four per-row emissions (one point pushed per series per row). -/
structure RowOut where
  assist : SeriesPoint
  increase : SeriesPoint
  decrease : SeriesPoint
  total : SeriesPoint
  deriving DecidableEq, Repr

/-! ### Cumulative-mode grouping (`transformer`) -/

/-- The Map key used for grouping: the raw `cur[xAxis]` read (JS Map keys
distinguish `undefined` from `null` from every other value). -/
def groupKey (cfg : Config) (r : DataRecord) : Option CellValue :=
  getCell r cfg.xAxisName

/-- Append a row to its group, preserving first-seen key order (JS `Map`
insertion order) and within-group row order (`push`). -/
def insertGroup (acc : List (Option CellValue × List DataRecord))
    (k : Option CellValue) (r : DataRecord) :
    List (Option CellValue × List DataRecord) :=
  match acc with
  | [] => [(k, [r])]
  | (k', rs) :: rest =>
    if k' = k then (k', rs ++ [r]) :: rest else (k', rs) :: insertGroup rest k r

/-- `data.reduce(...)` into a `Map<string, DataRecord[]>`, in insertion
order. -/
def groupBy (cfg : Config) (data : List DataRecord) :
    List (Option CellValue × List DataRecord) :=
  data.foldl (fun acc r => insertGroup acc (groupKey cfg r) r) []

/-- Sum of `(cur[metric] as number) ?? 0` over a group. -/
def groupSum (cfg : Config) (rs : List DataRecord) : Int :=
  rs.foldl (fun acc r => acc + asNumOr0 (getCell r cfg.metricLabel)) 0

/-- The synthetic per-group total row
`{ [xAxis]: key, [breakdown]: totalMark, [metric]: sum }`.  The fields are
listed so that a later literal field wins on a (degenerate) column-name
collision, as in a JS object literal. -/
def mkBreakdownTotalRow (cfg : Config) (bd : String) (k : Option CellValue)
    (sum : Int) : DataRecord :=
  (cfg.metricLabel, CellValue.num sum) :: (bd, CellValue.str cfg.totalMark) ::
    (match k with
     | some v => [(cfg.xAxisName, v)]
     | none => [])

/-- The synthetic collapsed per-category row `{ [xAxis]: key, [metric]: sum }`. -/
def mkCategoryRow (cfg : Config) (k : Option CellValue) (sum : Int) : DataRecord :=
  (cfg.metricLabel, CellValue.num sum) ::
    (match k with
     | some v => [(cfg.xAxisName, v)]
     | none => [])

/-- The synthetic grand-total row `{ [xAxis]: totalMark, [metric]: total }`. -/
def mkGrandTotalRow (cfg : Config) (total : Int) : DataRecord :=
  [(cfg.metricLabel, CellValue.num total), (cfg.xAxisName, CellValue.str cfg.totalMark)]

/-- The `transformer` helper: groups rows by category and, with a breakdown
column, keeps rows individual appending a per-group total row when
`showTotal`; without one, collapses each category to its sum and appends a
single grand-total row when `showTotal`. -/
def transformer (cfg : Config) (data : List DataRecord) : List DataRecord :=
  let groups := groupBy cfg data
  match cfg.breakdownName with
  | some bd =>
    groups.foldl
      (fun acc kv =>
        acc ++ kv.2 ++
          (if cfg.showTotal then [mkBreakdownTotalRow cfg bd kv.1 (groupSum cfg kv.2)] else []))
      []
  | none =>
    let base := groups.foldl (fun acc kv => acc ++ [mkCategoryRow cfg kv.1 (groupSum cfg kv.2)]) []
    let total := groups.foldl (fun acc kv => acc + groupSum cfg kv.2) 0
    base ++ (if cfg.showTotal then [mkGrandTotalRow cfg total] else [])

/-! ### Cumulative-mode accumulation -/

/-- Whether row `j` contributes to the running sum
(`self.slice(0, index + 1).reduce(...)`): with a breakdown column, rows whose
breakdown value is the total marker are skipped except at index 0
(`cur[breakdownName] !== totalMark || i === 0`); without one, rows whose
category value is the total marker are skipped (`cur[xAxisName] !== totalMark`),
with no index-0 exception. -/
def contributes (cfg : Config) (rows : List DataRecord) (j : Nat) : Bool :=
  match cfg.breakdownName with
  | some bd => (getCell (rows.getD j []) bd != some (.str cfg.totalMark)) || j == 0
  | none => getCell (rows.getD j []) cfg.xAxisName != some (.str cfg.totalMark)

/-- `(cur[metricLabel] as number) ?? 0` for row `j`. -/
def metricAt (cfg : Config) (rows : List DataRecord) (j : Nat) : Int :=
  asNumOr0 (getCell (rows.getD j []) cfg.metricLabel)

/-- `totalSum` at index `i`: the reduce over `self.slice(0, i + 1)`. -/
def totalSumAt (cfg : Config) (rows : List DataRecord) (i : Nat) : Int :=
  (List.range (i + 1)).foldl
    (fun acc j => if contributes cfg rows j then acc + metricAt cfg rows j else acc) 0

/-- `previousTotal` at iteration `i`: 0 initially, afterwards the `totalSum`
of the previous iteration (the source recomputes `totalSum` from the row
prefix each iteration and assigns `previousTotal = totalSum` at the end). -/
def prevTotal (cfg : Config) (rows : List DataRecord) (i : Nat) : Int :=
  if i = 0 then 0 else totalSumAt cfg rows (i - 1)

/-- `oppositeSigns = Math.sign(previousTotal) !== Math.sign(totalSum)`. -/
def oppSigns (cfg : Config) (rows : List DataRecord) (i : Nat) : Bool :=
  msign (prevTotal cfg rows i) != msign (totalSumAt cfg rows i)

/-- The per-row bar value: the raw metric read, clipped to
`Math.sign(value) * (Math.abs(value) - Math.abs(previousTotal))` when the
running total changed sign. -/
def cumValue (cfg : Config) (rows : List DataRecord) (i : Nat) : SVal :=
  if oppSigns cfg rows i then
    svClip (cellSV (getCell (rows.getD i []) cfg.metricLabel)) (prevTotal cfg rows i)
  else cellSV (getCell (rows.getD i []) cfg.metricLabel)

/-- The assist-bar colour: on a sign flip, the increase/decrease colour by
the sign of the bar value, else transparent. -/
def assistColor (cfg : Config) (rows : List DataRecord) (i : Nat) : String :=
  if oppSigns cfg rows i then
    (if svGt0 (cumValue cfg rows i) then cfg.increaseHex else cfg.decreaseHex)
  else "transparent"

/-- The assist point for a non-total cumulative row: 0 at index 0; the
previous running total (coloured) when the sign flipped or the magnitude
grew; otherwise the current running total (coloured). -/
def cumAssist (cfg : Config) (rows : List DataRecord) (i : Nat) : SeriesPoint :=
  if i = 0 then { value := SVal.num 0 }
  else if oppSigns cfg rows i
      || |totalSumAt cfg rows i| > |prevTotal cfg rows i| then
    { value := SVal.num (prevTotal cfg rows i), color := some (assistColor cfg rows i) }
  else
    { value := SVal.num (totalSumAt cfg rows i), color := some (assistColor cfg rows i) }

/-- One iteration of the cumulative `forEach`: the four points pushed for
row `i`. -/
def cumRowOut (cfg : Config) (rows : List DataRecord) (i : Nat) : RowOut :=
  if isTotalRow cfg (rows.getD i []) then
    { assist := tokenPoint
      increase := tokenPoint
      decrease := tokenPoint
      total :=
        { value := SVal.num (totalSumAt cfg rows i)
          originalValue := SVal.num (totalSumAt cfg rows i)
          totalSum := SVal.num (totalSumAt cfg rows i) } }
  else if svLt0 (cumValue cfg rows i) then
    { assist := cumAssist cfg rows i
      increase := tokenPoint
      decrease :=
        { value :=
            if totalSumAt cfg rows i < 0 then cumValue cfg rows i
            else svNeg (cumValue cfg rows i)
          originalValue := cellSV (getCell (rows.getD i []) cfg.metricLabel)
          totalSum := SVal.num (totalSumAt cfg rows i) }
      total := tokenPoint }
  else
    { assist := cumAssist cfg rows i
      increase :=
        { value :=
            if 0 < totalSumAt cfg rows i then cumValue cfg rows i
            else svNeg (cumValue cfg rows i)
          originalValue := cellSV (getCell (rows.getD i []) cfg.metricLabel)
          totalSum := SVal.num (totalSumAt cfg rows i) }
      decrease := tokenPoint
      total := tokenPoint }

/-! ### Non-cumulative mode -/

/-- One iteration of the non-cumulative `forEach`: a total-marker row emits a
standalone total bar from 0 to `end`; any other row emits a transparent
assist bar at `start` and the delta into increase (if `delta >= 0`) or
decrease (magnitude `-delta`). -/
def nonCumRowOut (cfg : Config) (r : DataRecord) : RowOut :=
  let s := readNum r cfg.metricStartLabel
  let e := readNum r cfg.metricEndLabel
  let delta := e - s
  if isTotalRow cfg r then
    { assist := tokenPoint
      increase := tokenPoint
      decrease := tokenPoint
      total :=
        { value := SVal.num e
          originalValue := SVal.num e
          totalSum := SVal.num e
          start := SVal.num 0
          end_ := SVal.num e } }
  else
    { assist := { value := SVal.num s, color := some "transparent" }
      increase :=
        if 0 ≤ delta then
          { value := SVal.num delta
            originalValue := SVal.num delta
            totalSum := SVal.num e
            start := SVal.num s
            end_ := SVal.num e }
        else tokenPoint
      decrease :=
        if 0 ≤ delta then tokenPoint
        else
          { value := SVal.num (-delta)
            originalValue := SVal.num delta
            totalSum := SVal.num e
            start := SVal.num s
            end_ := SVal.num e }
      total := tokenPoint }

/-! ### Category axis -/

/-- The raw value picked for the category axis: the breakdown value when a
breakdown column is configured and the row's breakdown value is not the
total marker, else the category value. -/
def xRaw (cfg : Config) (r : DataRecord) : Option CellValue :=
  match cfg.breakdownName with
  | some bd =>
    if getCell r bd != some (.str cfg.totalMark) then getCell r bd
    else getCell r cfg.xAxisName
  | none => getCell r cfg.xAxisName

/-- The category-axis entry for a row: a falsy raw value (`undefined`,
`null`, the empty string, the number 0) is replaced by `NULL_STRING`; the
remaining values are strings or numbers, so the `String(value)` coercion
branch for other types has no inhabitant in this data model. -/
def xCell (cfg : Config) (r : DataRecord) : CellValue :=
  match xRaw cfg r with
  | none => .str NULL_STRING
  | some .nullv => .str NULL_STRING
  | some (.str s) => if s = "" then .str NULL_STRING else .str s
  | some (.num q) => if q = 0 then .str NULL_STRING else .num q

/-! ### The whole series builder -/

/-- The transform output the claims are about: the flat row sequence, the
four parallel series, and the category-axis entries. -/
structure SeriesOut where
  transformedData : List DataRecord
  assist : List SeriesPoint
  increase : List SeriesPoint
  decrease : List SeriesPoint
  total : List SeriesPoint
  xAxisData : List CellValue
  deriving DecidableEq, Repr

/-- The series-building part of `transformProps`: in non-cumulative mode each
input row is processed independently (and pushed through unchanged); in
cumulative mode the grouped rows from `transformer` are folded with the
running total.  The source pushes one point per series per iteration, so the
series are the per-row emissions in order. -/
def transform (cfg : Config) (data : List DataRecord) : SeriesOut :=
  if cfg.useNonCumulative then
    let outs := data.map (nonCumRowOut cfg)
    { transformedData := data
      assist := outs.map (·.assist)
      increase := outs.map (·.increase)
      decrease := outs.map (·.decrease)
      total := outs.map (·.total)
      xAxisData := data.map (xCell cfg) }
  else
    let rows := transformer cfg data
    let outs := (List.range rows.length).map (cumRowOut cfg rows)
    { transformedData := rows
      assist := outs.map (·.assist)
      increase := outs.map (·.increase)
      decrease := outs.map (·.decrease)
      total := outs.map (·.total)
      xAxisData := rows.map (xCell cfg) }

/-! ### Tooltip formatter -/

/-- One hovered-axis candidate entry (`ICallbackDataParams`): the series
name, the axis label value, the data index, and the series point. -/
structure TParam where
  seriesName : String
  name : CellValue
  dataIndex : Nat
  data : SeriesPoint
  deriving DecidableEq, Repr

/-- The tooltip formatter's return value.  `tooltipHtml` is an external
collaborator, so an HTML render is kept structured as its row list and
optional title; `empty` is the `return ''` and `nullStr` the
`return NULL_STRING` exit. -/
inductive TooltipResult where
  | empty
  | nullStr
  | html (rows : List (String × String)) (title : Option String)
  deriving DecidableEq, Repr

/-- The `params.find` predicate:
`param.seriesName !== ASSIST_MARK && param.data.value !== TOKEN`. -/
def tooltipPred (p : TParam) : Bool :=
  p.seriesName != ASSIST_MARK && p.data.value != SVal.token

/-- JS `typeof x === 'number'` on a stored value (`NaN` is a number). -/
def svIsNumberType : SVal → Bool
  | .num _ => true
  | .nan => true
  | _ => false

/-- JS strict `x !== 0` (true for every non-number, and for `NaN`). -/
def svStrictNe0 : SVal → Bool
  | .num q => q != 0
  | _ => true

/-- The local `percentChange`: an exact rational when both operands are
numbers, `NaN` otherwise (it is only computed, never stored in a series
point). -/
inductive PctVal where
  | nan
  | val (q : Rat)
  deriving DecidableEq, Repr

/-- `(absChange / start) * 100` with `NaN` propagation; only ever invoked
under the guard `typeof start === 'number' && start !== 0 &&
typeof absChange === 'number'`, so the division never sees a zero start. -/
def svPct (absChange start : SVal) : PctVal :=
  match absChange, start with
  | .num a, .num s => .val ((a : Rat) / (s : Rat) * 100)
  | _, _ => .nan

/-- `Number.prototype.toFixed(2)` on a model number: round half away from
zero to two decimals and render with a two-digit fraction. -/
def toFixed2 (q : Rat) : String :=
  let n : Int := if 0 ≤ q then (q * 100 + 1 / 2).floor else (q * 100 - 1 / 2).ceil
  let m := n.natAbs
  (if n < 0 then "-" else "") ++ toString (m / 100) ++ "." ++
    (if m % 100 < 10 then "0" else "") ++ toString (m % 100)

/-- `toFixed(2)` on a percent value (`NaN` renders as "NaN"). -/
def toFixed2P : PctVal → String
  | .val q => toFixed2 q
  | .nan => "NaN"

/-- JS `x ?? y` on a stored value (`undefined`/`null` fall through). -/
def svCoalesce (x y : SVal) : SVal :=
  match x with
  | .undef => y
  | .nullv => y
  | v => v

/-- The tooltip formatter (`formatTooltip`).  `fmt` is the external number
formatter (`defaultFormatter`) and `xfmt` the x-axis formatter; both are
polymorphic collaborators.  The second `if (!series)` guard of the source is
kept in place (it re-tests the same `find` result inside the branch where it
was already found). -/
def formatTooltip (params : List TParam) (breakdownName : Option String)
    (fmt : SVal → String) (xfmt : CellValue → Nat → String)
    (totalMark : String) (useNonCumulative : Bool) : TooltipResult :=
  let series? := params.find? tooltipPred
  match series? with
  | none => TooltipResult.empty
  | some series =>
    let isTotal := series.seriesName == totalMark
    if series?.isNone then TooltipResult.nullStr
    else
      let title :=
        if !isTotal || breakdownName.isSome then
          some (xfmt series.name series.dataIndex)
        else none
      if useNonCumulative && !isTotal then
        let d := series.data
        let start := d.start
        let endv := svCoalesce d.end_ d.totalSum
        let absChange := d.originalValue
        let pct? : Option PctVal :=
          if svIsNumberType start && svStrictNe0 start && svIsNumberType absChange then
            some (svPct absChange start)
          else none
        let rows :=
          (if start != SVal.undef then [("Start", fmt start)] else []) ++
          (if endv != SVal.undef then [("End", fmt endv)] else []) ++
          (match pct? with
           | some p => [("Change (%)", toFixed2P p ++ "%")]
           | none =>
             if absChange != SVal.undef then [("Change", fmt absChange)] else [])
        TooltipResult.html rows title
      else
        let rows :=
          (if !isTotal then [(series.seriesName, fmt series.data.originalValue)] else []) ++
          [(totalMark, fmt series.data.totalSum)]
        TooltipResult.html rows title

/-! ### Helper lemmas -/

/-- A point is rendered at an index when its value is not the sentinel. -/
def nonSentinel (p : SeriesPoint) : Bool :=
  p.value != SVal.token

/-- Exactly one of three flags holds. -/
def exactlyOne3 (a b c : Bool) : Bool :=
  (a && !b && !c) || (!a && b && !c) || (!a && !b && c)

theorem svNeg_ne_token (v : SVal) : svNeg v ≠ SVal.token := by
  cases v <;> simp [svNeg]

theorem svClip_ne_token (v : SVal) (pt : Int) : svClip v pt ≠ SVal.token := by
  cases v <;> simp [svClip]

theorem cellSV_ne_token (c : Option CellValue) : cellSV c ≠ SVal.token := by
  rcases c with _ | c
  · simp [cellSV]
  · cases c <;> simp [cellSV]

theorem cumValue_ne_token (cfg : Config) (rows : List DataRecord) (i : Nat) :
    cumValue cfg rows i ≠ SVal.token := by
  unfold cumValue
  split
  · exact svClip_ne_token _ _
  · exact cellSV_ne_token _

/-- Every cumulative iteration renders exactly one of increase, decrease,
total. -/
theorem cum_exclusive (cfg : Config) (rows : List DataRecord) (i : Nat) :
    exactlyOne3 (nonSentinel (cumRowOut cfg rows i).increase)
      (nonSentinel (cumRowOut cfg rows i).decrease)
      (nonSentinel (cumRowOut cfg rows i).total) = true := by
  have h1 := cumValue_ne_token cfg rows i
  have h2 := svNeg_ne_token (cumValue cfg rows i)
  unfold cumRowOut
  split
  · simp [nonSentinel, exactlyOne3, tokenPoint]
  · split
    · simp only [nonSentinel, exactlyOne3, tokenPoint]
      split <;> simp_all [bne_iff_ne]
    · simp only [nonSentinel, exactlyOne3, tokenPoint]
      split <;> simp_all [bne_iff_ne]

/-- Every non-cumulative iteration renders exactly one of increase, decrease,
total. -/
theorem nonCum_exclusive (cfg : Config) (r : DataRecord) :
    exactlyOne3 (nonSentinel (nonCumRowOut cfg r).increase)
      (nonSentinel (nonCumRowOut cfg r).decrease)
      (nonSentinel (nonCumRowOut cfg r).total) = true := by
  unfold nonCumRowOut
  split
  · simp [nonSentinel, exactlyOne3, tokenPoint]
  · simp only [nonSentinel, exactlyOne3, tokenPoint]
    split <;> simp [bne_iff_ne]

theorem transform_lengths (cfg : Config) (data : List DataRecord) :
    (transform cfg data).assist.length = (transform cfg data).transformedData.length
    ∧ (transform cfg data).increase.length = (transform cfg data).transformedData.length
    ∧ (transform cfg data).decrease.length = (transform cfg data).transformedData.length
    ∧ (transform cfg data).total.length = (transform cfg data).transformedData.length
    ∧ (transform cfg data).xAxisData.length = (transform cfg data).transformedData.length := by
  unfold transform
  split <;> simp

/-! ### C2 -/

/-- C2: for every input table and configuration, in both modes, the four
output series (assist, increase, decrease, total) all have the same length,
and that length equals the number of category-axis entries produced for the
chart. -/
theorem waterfall_c2 (cfg : Config) (data : List DataRecord) :
    (transform cfg data).assist.length = (transform cfg data).xAxisData.length
    ∧ (transform cfg data).increase.length = (transform cfg data).xAxisData.length
    ∧ (transform cfg data).decrease.length = (transform cfg data).xAxisData.length
    ∧ (transform cfg data).total.length = (transform cfg data).xAxisData.length := by
  unfold transform
  split <;> simp

/-! ### C1 -/

/-- C1: for every input table and configuration, in both cumulative and
non-cumulative mode, at every index of the output exactly one of the
increase, decrease, and total series holds a non-sentinel (TOKEN) value and
the other two hold the sentinel. -/
theorem waterfall_c1 (cfg : Config) (data : List DataRecord) (i : Nat)
    (h : i < (transform cfg data).increase.length) :
    exactlyOne3 (nonSentinel ((transform cfg data).increase.getD i tokenPoint))
      (nonSentinel ((transform cfg data).decrease.getD i tokenPoint))
      (nonSentinel ((transform cfg data).total.getD i tokenPoint)) = true := by
  unfold transform at *
  by_cases hnc : cfg.useNonCumulative = true
  · simp only [hnc, if_pos] at h ⊢
    simp only [List.length_map] at h
    rw [List.getD_eq_getElem _ _ (by simpa using h),
        List.getD_eq_getElem _ _ (by simpa using h),
        List.getD_eq_getElem _ _ (by simpa using h)]
    simp only [List.getElem_map]
    exact nonCum_exclusive cfg data[i]
  · simp only [Bool.not_eq_true] at hnc
    simp only [hnc, Bool.false_eq_true, if_false] at h ⊢
    simp only [List.length_map, List.length_range] at h
    rw [List.getD_eq_getElem _ _ (by simpa using h),
        List.getD_eq_getElem _ _ (by simpa using h),
        List.getD_eq_getElem _ _ (by simpa using h)]
    simp only [List.getElem_map, List.getElem_range]
    exact cum_exclusive cfg (transformer cfg data) i

/-- C1 witness: the theorem applied at a concrete table. -/
theorem waterfall_c1_witness :
    exactlyOne3
      (nonSentinel ((transform { xAxisName := "x", metricLabel := "m" }
        [[("x", CellValue.str "a"), ("m", CellValue.num 7)]]).increase.getD 0 tokenPoint))
      (nonSentinel ((transform { xAxisName := "x", metricLabel := "m" }
        [[("x", CellValue.str "a"), ("m", CellValue.num 7)]]).decrease.getD 0 tokenPoint))
      (nonSentinel ((transform { xAxisName := "x", metricLabel := "m" }
        [[("x", CellValue.str "a"), ("m", CellValue.num 7)]]).total.getD 0 tokenPoint)) = true :=
  waterfall_c1 { xAxisName := "x", metricLabel := "m" }
    [[("x", CellValue.str "a"), ("m", CellValue.num 7)]] 0 (by decide)

/-! ### C3 -/

/-- The running sum exactly as the claim words it: the sum of metric values
up to and including index `i`, skipping rows that are total markers except at
index 0 (stated for comparison with the source's `totalSumAt`). -/
def runningSumClaim (cfg : Config) (rows : List DataRecord) (i : Nat) : Int :=
  (List.range (i + 1)).foldl
    (fun acc j =>
      if isTotalRow cfg (rows.getD j []) && j != 0 then acc
      else acc + metricAt cfg rows j) 0

def c3cfg : Config := { xAxisName := "x", metricLabel := "m", totalMark := "T" }

def c3rows : List DataRecord := [[("x", CellValue.str "T"), ("m", CellValue.num 5)]]

/-- C3 counterexample: without a breakdown column, a first row whose category
value equals the total marker is skipped by the code even at index 0, so the
emitted total-series value (0) differs from the claim's running sum (5),
which would include index 0. -/
theorem waterfall_c3_counterexample :
    (cumRowOut c3cfg c3rows 0).total.value = SVal.num 0
    ∧ runningSumClaim c3cfg c3rows 0 = 5
    ∧ (cumRowOut c3cfg c3rows 0).total.value ≠ SVal.num (runningSumClaim c3cfg c3rows 0) := by
  refine ⟨by decide, by decide, by decide⟩

/-- The running-total recurrence: `totalSum` at `i` is `previousTotal` plus
the row's metric contribution when the row contributes. -/
theorem totalSum_step (cfg : Config) (rows : List DataRecord) (i : Nat) :
    totalSumAt cfg rows i
      = prevTotal cfg rows i
        + (if contributes cfg rows i then metricAt cfg rows i else 0) := by
  cases i with
  | zero =>
    have h0 : List.range 1 = [0] := rfl
    rw [totalSumAt, h0]
    simp only [List.foldl_cons, List.foldl_nil, prevTotal, if_pos rfl]
    split <;> simp
  | succ n =>
    have h1 : totalSumAt cfg rows (n + 1)
        = if contributes cfg rows (n + 1) then totalSumAt cfg rows n + metricAt cfg rows (n + 1)
          else totalSumAt cfg rows n := by
      simp only [totalSumAt, List.range_succ, List.foldl_append, List.foldl_cons,
        List.foldl_nil]
    have h2 : prevTotal cfg rows (n + 1) = totalSumAt cfg rows n := by
      simp [prevTotal]
    rw [h1, h2]
    split <;> simp

/-- A row not classified total always contributes to the running sum. -/
theorem nonTotal_contributes (cfg : Config) (rows : List DataRecord) (i : Nat)
    (h : isTotalRow cfg (rows.getD i []) = false) :
    contributes cfg rows i = true := by
  unfold isTotalRow at h
  unfold contributes
  rcases hbd : cfg.breakdownName with _ | bd <;> rw [hbd] at h <;> simp_all [bne]

/-- C3 (amended): in cumulative mode, for every grouped row sequence whose
metric cells are numeric or absent, `totalSum[i] = previousTotal[i] +
contribution[i]`, where a row contributes its metric value unless it is
skipped; with a breakdown column configured, a row is skipped when its
breakdown value is the total marker (except index 0, which always
contributes); without one, a row is skipped when its category value is the
total marker, including at index 0.  Non-total rows always contribute (the
recurrence `totalSum[i] = totalSum[i-1] + value[i]` of the claim), and for
total rows the emitted total-series value equals that running sum. -/
theorem waterfall_c3_amended (cfg : Config) (rows : List DataRecord) (i : Nat)
    (hM : ∀ r ∈ rows, metricCellOk cfg.metricLabel r = true)
    (hi : i < rows.length) :
    totalSumAt cfg rows i
      = prevTotal cfg rows i
        + (if contributes cfg rows i then metricAt cfg rows i else 0)
    ∧ (isTotalRow cfg (rows.getD i []) = false → contributes cfg rows i = true)
    ∧ (isTotalRow cfg (rows.getD i []) = true →
        (cumRowOut cfg rows i).total.value = SVal.num (totalSumAt cfg rows i)) := by
  refine ⟨totalSum_step cfg rows i, nonTotal_contributes cfg rows i, fun h => ?_⟩
  unfold cumRowOut
  rw [if_pos h]

def c3wcfg : Config := { xAxisName := "x", metricLabel := "m", totalMark := "T" }

def c3wrows : List DataRecord :=
  [[("x", CellValue.str "a"), ("m", CellValue.num 2)],
   [("x", CellValue.str "b"), ("m", CellValue.num 3)]]

/-- C3 witness: the amended theorem applied at a concrete grouped sequence. -/
theorem waterfall_c3_witness :
    totalSumAt c3wcfg c3wrows 1
      = prevTotal c3wcfg c3wrows 1
        + (if contributes c3wcfg c3wrows 1 then metricAt c3wcfg c3wrows 1 else 0)
    ∧ (isTotalRow c3wcfg (c3wrows.getD 1 []) = false → contributes c3wcfg c3wrows 1 = true)
    ∧ (isTotalRow c3wcfg (c3wrows.getD 1 []) = true →
        (cumRowOut c3wcfg c3wrows 1).total.value = SVal.num (totalSumAt c3wcfg c3wrows 1)) :=
  waterfall_c3_amended c3wcfg c3wrows 1 (by decide) (by decide)

/-! ### C4 -/

/-- C4: in cumulative mode, for every non-total row whose metric cell is a
number `ov`, the emitted bar magnitude is `ov` itself except when the running
total changed sign relative to `previousTotal`, in which case it is clipped
to `sign(ov) * (|ov| - |previousTotal|)`; a (clipped-or-unclipped) value `v <
0` goes to the decrease series, kept as-is if `totalSum` is negative and
negated otherwise, and a value `v ≥ 0` goes symmetrically to the increase
series (kept as-is if `totalSum` is positive, negated otherwise); the other
of the two holds the sentinel, and the emitted point carries `ov` as its
`originalValue`. -/
theorem waterfall_c4 (cfg : Config) (rows : List DataRecord) (i : Nat) (ov v : Int)
    (hnt : isTotalRow cfg (rows.getD i []) = false)
    (hov : getCell (rows.getD i []) cfg.metricLabel = some (CellValue.num ov))
    (hv : v = if msign (prevTotal cfg rows i) = msign (totalSumAt cfg rows i) then ov
          else msign ov * (|ov| - |prevTotal cfg rows i|)) :
    (v < 0 →
      (cumRowOut cfg rows i).decrease.value
          = SVal.num (if totalSumAt cfg rows i < 0 then v else -v)
        ∧ (cumRowOut cfg rows i).decrease.originalValue = SVal.num ov
        ∧ (cumRowOut cfg rows i).increase.value = SVal.token)
    ∧ (0 ≤ v →
      (cumRowOut cfg rows i).increase.value
          = SVal.num (if 0 < totalSumAt cfg rows i then v else -v)
        ∧ (cumRowOut cfg rows i).increase.originalValue = SVal.num ov
        ∧ (cumRowOut cfg rows i).decrease.value = SVal.token) := by
  have hcell : cellSV (getCell (rows.getD i []) cfg.metricLabel) = SVal.num ov := by
    rw [hov]; rfl
  have hcv : cumValue cfg rows i = SVal.num v := by
    unfold cumValue oppSigns
    by_cases hs : msign (prevTotal cfg rows i) = msign (totalSumAt cfg rows i)
    · rw [hv, if_pos hs]
      have hb : (msign (prevTotal cfg rows i) != msign (totalSumAt cfg rows i)) = false := by
        simp [hs]
      rw [hb]
      rw [if_neg (by simp)]
      exact hcell
    · rw [hv, if_neg hs]
      have hb : (msign (prevTotal cfg rows i) != msign (totalSumAt cfg rows i)) = true := by
        simpa [bne_iff_ne] using hs
      rw [hb, if_pos rfl, hcell]
      rfl
  constructor
  · intro hlt
    have hsv : svLt0 (cumValue cfg rows i) = true := by
      rw [hcv]; simpa [svLt0] using hlt
    refine ⟨?_, ?_, ?_⟩ <;>
      simp only [cumRowOut, hnt, Bool.false_eq_true, if_false, hsv, if_true, hov, cellSV,
        tokenPoint] <;>
      rw [hcv] <;> split <;> simp [svNeg]
  · intro hge
    have hsv : svLt0 (cumValue cfg rows i) = false := by
      rw [hcv]; simpa [svLt0] using hge
    refine ⟨?_, ?_, ?_⟩ <;>
      simp only [cumRowOut, hnt, Bool.false_eq_true, if_false, hsv, if_true, hov, cellSV,
        tokenPoint] <;>
      rw [hcv] <;> split <;> simp [svNeg]

def c4cfg : Config := { xAxisName := "x", metricLabel := "m", totalMark := "T" }

/-- C4 witness: the theorem applied at a concrete row. -/
theorem waterfall_c4_witness :
    ((5 : Int) < 0 →
      (cumRowOut c4cfg [[("x", CellValue.str "a"), ("m", CellValue.num 5)]] 0).decrease.value
          = SVal.num
            (if totalSumAt c4cfg [[("x", CellValue.str "a"), ("m", CellValue.num 5)]] 0 < 0
             then (5 : Int) else -(5 : Int))
        ∧ (cumRowOut c4cfg [[("x", CellValue.str "a"), ("m", CellValue.num 5)]] 0).decrease.originalValue
            = SVal.num 5
        ∧ (cumRowOut c4cfg [[("x", CellValue.str "a"), ("m", CellValue.num 5)]] 0).increase.value
            = SVal.token)
    ∧ ((0 : Int) ≤ 5 →
      (cumRowOut c4cfg [[("x", CellValue.str "a"), ("m", CellValue.num 5)]] 0).increase.value
          = SVal.num
            (if 0 < totalSumAt c4cfg [[("x", CellValue.str "a"), ("m", CellValue.num 5)]] 0
             then (5 : Int) else -(5 : Int))
        ∧ (cumRowOut c4cfg [[("x", CellValue.str "a"), ("m", CellValue.num 5)]] 0).increase.originalValue
            = SVal.num 5
        ∧ (cumRowOut c4cfg [[("x", CellValue.str "a"), ("m", CellValue.num 5)]] 0).decrease.value
            = SVal.token) :=
  waterfall_c4 c4cfg [[("x", CellValue.str "a"), ("m", CellValue.num 5)]] 0 5 5
    (by decide) (by decide) (by decide)

/-! ### C5 -/

/-- In non-cumulative mode the series at index `i` are the per-row emissions
for input row `i`. -/
theorem transform_nc_at (cfg : Config) (data : List DataRecord) (i : Nat)
    (hnc : cfg.useNonCumulative = true) (hi : i < data.length) :
    (transform cfg data).assist.getD i tokenPoint
        = (nonCumRowOut cfg (data.getD i [])).assist
    ∧ (transform cfg data).increase.getD i tokenPoint
        = (nonCumRowOut cfg (data.getD i [])).increase
    ∧ (transform cfg data).decrease.getD i tokenPoint
        = (nonCumRowOut cfg (data.getD i [])).decrease
    ∧ (transform cfg data).total.getD i tokenPoint
        = (nonCumRowOut cfg (data.getD i [])).total := by
  unfold transform
  rw [if_pos hnc]
  refine ⟨?_, ?_, ?_, ?_⟩ <;>
    · dsimp only
      rw [List.getD_eq_getElem _ _ (by simpa using hi), List.getElem_map, List.getElem_map,
        List.getD_eq_getElem _ _ hi]

/-- C5: in non-cumulative mode, every row is processed independently: start
and end are read from the configured start/end metric columns, defaulting to
0 when absent or null, and `delta = end - start`; a total-marker row emits a
standalone total-series bar spanning 0 to `end` with increase, decrease and
assist sentinel; a non-total row emits the transparent assist bar at `start`,
the delta into increase when `delta ≥ 0` or into decrease with magnitude
`-delta` when `delta < 0` (the other sentinel), sentinel into total, and
carries `start`, `end` and `originalValue = delta` on the emitted point. -/
theorem waterfall_c5 (cfg : Config) (data : List DataRecord) (i : Nat)
    (r : DataRecord) (s e : Int)
    (hnc : cfg.useNonCumulative = true)
    (hi : i < data.length)
    (hr : r = data.getD i [])
    (hsOk : numCellOk r cfg.metricStartLabel = true)
    (heOk : numCellOk r cfg.metricEndLabel = true)
    (hs : s = readNum r cfg.metricStartLabel)
    (he : e = readNum r cfg.metricEndLabel) :
    (isTotalRow cfg r = true →
        (transform cfg data).assist.getD i tokenPoint = tokenPoint
        ∧ (transform cfg data).increase.getD i tokenPoint = tokenPoint
        ∧ (transform cfg data).decrease.getD i tokenPoint = tokenPoint
        ∧ (transform cfg data).total.getD i tokenPoint
            = { value := SVal.num e, originalValue := SVal.num e,
                totalSum := SVal.num e, start := SVal.num 0, end_ := SVal.num e })
    ∧ (isTotalRow cfg r = false →
        (transform cfg data).assist.getD i tokenPoint
            = { value := SVal.num s, color := some "transparent" }
        ∧ (transform cfg data).total.getD i tokenPoint = tokenPoint
        ∧ (0 ≤ e - s →
            (transform cfg data).increase.getD i tokenPoint
              = { value := SVal.num (e - s), originalValue := SVal.num (e - s),
                  totalSum := SVal.num e, start := SVal.num s, end_ := SVal.num e }
            ∧ (transform cfg data).decrease.getD i tokenPoint = tokenPoint)
        ∧ (e - s < 0 →
            (transform cfg data).decrease.getD i tokenPoint
              = { value := SVal.num (-(e - s)), originalValue := SVal.num (e - s),
                  totalSum := SVal.num e, start := SVal.num s, end_ := SVal.num e }
            ∧ (transform cfg data).increase.getD i tokenPoint = tokenPoint))
    ∧ (∀ (r' : DataRecord) (k : String),
        getCell r' k = none ∨ getCell r' k = some CellValue.nullv →
          readNum r' (some k) = 0) := by
  obtain ⟨hA, hI, hD, hT⟩ := transform_nc_at cfg data i hnc hi
  rw [← hr] at hA hI hD hT
  subst hs he
  refine ⟨fun ht => ?_, fun hf => ?_, fun r' k hk => ?_⟩
  · rw [hA, hI, hD, hT]
    unfold nonCumRowOut
    rw [if_pos ht]
    exact ⟨rfl, rfl, rfl, rfl⟩
  · rw [hA, hI, hD, hT]
    unfold nonCumRowOut
    rw [if_neg (by simp [hf])]
    refine ⟨rfl, rfl, fun hd => ?_, fun hd => ?_⟩
    · dsimp only
      rw [if_pos hd, if_pos hd]
      exact ⟨rfl, rfl⟩
    · dsimp only
      rw [if_neg (by omega), if_neg (by omega)]
      exact ⟨rfl, rfl⟩
  · rcases hk with hk | hk <;> simp [readNum, hk]

def c5wcfg : Config :=
  { xAxisName := "x", metricStartLabel := some "s", metricEndLabel := some "e",
    nonCumulative := true, totalMark := "T" }

def c5wdata : List DataRecord :=
  [[("x", CellValue.str "A"), ("s", CellValue.num 100), ("e", CellValue.num 80)]]

/-- C5 witness: the theorem applied at the spec's Scenario B row
(start 100, end 80, delta -20). -/
theorem waterfall_c5_witness :
    (transform c5wcfg c5wdata).decrease.getD 0 tokenPoint
      = { value := SVal.num (-((80 : Int) - 100)), originalValue := SVal.num ((80 : Int) - 100),
          totalSum := SVal.num 80, start := SVal.num 100, end_ := SVal.num 80 }
    ∧ (transform c5wcfg c5wdata).increase.getD 0 tokenPoint = tokenPoint
    ∧ (transform c5wcfg c5wdata).assist.getD 0 tokenPoint
      = { value := SVal.num 100, color := some "transparent" }
    ∧ readNum [] (some "s") = 0 := by
  have h := waterfall_c5 c5wcfg c5wdata 0 (c5wdata.getD 0 []) 100 80 rfl (by decide) rfl
    (by decide) (by decide) (by decide) (by decide)
  have hb := h.2.1 (by decide)
  have hd := hb.2.2.2 (by decide)
  exact ⟨hd.1, hd.2, hb.1, h.2.2 [] "s" (Or.inl rfl)⟩

/-! ### C6 -/

/-- The claim's reading of a stored series value: sentinel (and every
non-numeric value) counts as 0. -/
def svOr0 : SVal → Int
  | .num q => q
  | _ => 0

def c6cfg : Config := { xAxisName := "x", metricLabel := "m", totalMark := "T" }

def c6rows : List DataRecord :=
  [[("x", CellValue.str "a"), ("m", CellValue.num (-10))],
   [("x", CellValue.str "b"), ("m", CellValue.num 3)]]

/-- C6 counterexample: with rows of metric -10 then 3 the running total stays
negative, so the source stores the increase bar at index 1 negated
(`totalSum > 0 ? value : -value` gives -3); `increase[1] - decrease[1]` is
therefore -3 while the delta added to the running total is 3. -/
theorem waterfall_c6_counterexample :
    (cumRowOut c6cfg c6rows 1).increase.value = SVal.num (-3)
    ∧ (cumRowOut c6cfg c6rows 1).decrease.value = SVal.token
    ∧ totalSumAt c6cfg c6rows 1 - prevTotal c6cfg c6rows 1 = 3
    ∧ svOr0 (cumRowOut c6cfg c6rows 1).increase.value
        - svOr0 (cumRowOut c6cfg c6rows 1).decrease.value
        ≠ totalSumAt c6cfg c6rows 1 - prevTotal c6cfg c6rows 1 := by
  refine ⟨by decide, by decide, by decide, by decide⟩

theorem msign_mul_abs (q : Int) : msign q * |q| = q := by
  unfold msign
  rcases lt_trichotomy q 0 with h | h | h
  · rw [if_pos h, abs_of_neg h]; ring
  · subst h; simp
  · rw [if_neg (by omega), if_pos h, abs_of_pos h]; ring

theorem msign_pos {q : Int} (h : 0 < q) : msign q = 1 := by
  unfold msign
  rw [if_neg (by omega), if_pos h]

/-- C6 (amended): in cumulative mode, at every non-total index whose metric
cell is a number or null and at which the running totals up to and including
the index are all strictly positive, `increase[i] - decrease[i]` (sentinel as
0) equals the signed delta added to the running total at `i`.  Without the
positivity restriction the stored bar may be negated or clipped, and the
difference then differs from the delta (see the counterexample). -/
theorem waterfall_c6_amended (cfg : Config) (rows : List DataRecord) (i : Nat)
    (hM : ∀ r ∈ rows, metricCellStrict cfg.metricLabel r = true)
    (hpos : ∀ j ∈ List.range (i + 1), 0 < totalSumAt cfg rows j)
    (hnt : isTotalRow cfg (rows.getD i []) = false)
    (hi : i < rows.length) :
    svOr0 (cumRowOut cfg rows i).increase.value
      - svOr0 (cumRowOut cfg rows i).decrease.value
      = totalSumAt cfg rows i - prevTotal cfg rows i := by
  have hts : 0 < totalSumAt cfg rows i :=
    hpos i (List.mem_range.mpr (Nat.lt_succ_self i))
  have hmem : rows.getD i [] ∈ rows := by
    rw [List.getD_eq_getElem _ _ hi]
    exact List.getElem_mem hi
  have hcellOk := hM (rows.getD i []) hmem
  have hstep : totalSumAt cfg rows i = prevTotal cfg rows i + metricAt cfg rows i := by
    have h := totalSum_step cfg rows i
    rw [nonTotal_contributes cfg rows i hnt, if_pos rfl] at h
    exact h
  unfold metricCellStrict at hcellOk
  rcases hcell : getCell (rows.getD i []) cfg.metricLabel with _ | c
  · rw [hcell] at hcellOk; exact absurd hcellOk (by simp)
  · rcases c with cs | cq | _
    · rw [hcell] at hcellOk; exact absurd hcellOk (by simp)
    · -- numeric metric cell
      have hmet : metricAt cfg rows i = cq := by
        unfold metricAt; rw [hcell]; rfl
      have hcv : cumValue cfg rows i = SVal.num cq := by
        unfold cumValue oppSigns
        cases i with
        | zero =>
          have hpt : prevTotal cfg rows 0 = 0 := by simp [prevTotal]
          have hq : totalSumAt cfg rows 0 = cq := by
            rw [hstep, hpt, hmet]; ring
          have hqpos : 0 < cq := hq ▸ hts
          have hb : (msign (prevTotal cfg rows 0) != msign (totalSumAt cfg rows 0)) = true := by
            rw [hpt, msign_pos hts]
            simp [msign]
          rw [hb, if_pos rfl, hcell]
          show svClip (SVal.num cq) (prevTotal cfg rows 0) = SVal.num cq
          rw [hpt]
          show SVal.num (msign cq * (|cq| - |(0 : Int)|)) = SVal.num cq
          rw [abs_zero, sub_zero, msign_mul_abs]
        | succ j =>
          have hptpos : 0 < prevTotal cfg rows (j + 1) := by
            have := hpos j (List.mem_range.mpr (by omega))
            simpa [prevTotal] using this
          have hb : (msign (prevTotal cfg rows (j + 1))
              != msign (totalSumAt cfg rows (j + 1))) = false := by
            rw [msign_pos hts, msign_pos hptpos]
            simp
          rw [hb]
          rw [if_neg (by simp), hcell]
          rfl
      have hIlt : svLt0 (cumValue cfg rows i) = (decide (cq < 0)) := by
        rw [hcv]; rfl
      unfold cumRowOut
      rw [if_neg (by rw [hnt]; simp)]
      by_cases hq : cq < 0
      · rw [if_pos (by rw [hIlt]; simpa using hq)]
        dsimp only
        rw [if_neg (by omega), hcv]
        show (0 : Int) - svOr0 (svNeg (SVal.num cq)) = _
        rw [hstep, hmet]
        show (0 : Int) - (-cq) = _
        ring
      · rw [if_neg (by rw [hIlt]; simpa using hq)]
        dsimp only
        rw [if_pos hts, hcv]
        rw [hstep, hmet]
        show cq - (0 : Int) = _
        ring
    · -- null metric cell: contributes 0 and is stored as-is
      have hmet : metricAt cfg rows i = 0 := by
        unfold metricAt; rw [hcell]; rfl
      have hcv : cumValue cfg rows i = SVal.nullv := by
        unfold cumValue oppSigns
        cases i with
        | zero =>
          have hpt : prevTotal cfg rows 0 = 0 := by simp [prevTotal]
          have h0 : totalSumAt cfg rows 0 = 0 := by rw [hstep, hpt, hmet]; ring
          exact absurd (h0 ▸ hts) (by simp)
        | succ j =>
          have hptpos : 0 < prevTotal cfg rows (j + 1) := by
            have := hpos j (List.mem_range.mpr (by omega))
            simpa [prevTotal] using this
          have hb : (msign (prevTotal cfg rows (j + 1))
              != msign (totalSumAt cfg rows (j + 1))) = false := by
            rw [msign_pos hts, msign_pos hptpos]
            simp
          rw [hb]
          rw [if_neg (by simp), hcell]
          rfl
      unfold cumRowOut
      rw [if_neg (by rw [hnt]; simp)]
      rw [if_neg (by rw [hcv]; simp [svLt0])]
      dsimp only
      rw [if_pos hts, hcv]
      rw [hstep, hmet]
      show (0 : Int) - 0 = _
      ring

def c6wcfg : Config := { xAxisName := "x", metricLabel := "m", totalMark := "T" }

def c6wrows : List DataRecord :=
  [[("x", CellValue.str "a"), ("m", CellValue.num 10)],
   [("x", CellValue.str "b"), ("m", CellValue.num (-4))]]

/-- C6 witness: the amended theorem applied at a concrete sequence with
positive running totals (10 then 6). -/
theorem waterfall_c6_witness :
    svOr0 (cumRowOut c6wcfg c6wrows 1).increase.value
      - svOr0 (cumRowOut c6wcfg c6wrows 1).decrease.value
      = totalSumAt c6wcfg c6wrows 1 - prevTotal c6wcfg c6wrows 1 :=
  waterfall_c6_amended c6wcfg c6wrows 1 (by decide) (by decide) (by decide) (by decide)

/-! ### C7 -/

def c7cfg : Config :=
  { xAxisName := "x", breakdownName := some "b", metricLabel := "m", totalMark := "T" }

def c7data : List DataRecord := [[("x", CellValue.str "a"), ("b", CellValue.str "p")]]

/-- C7 counterexample: in cumulative mode with a breakdown column, original
rows pass through ungrouped and a row with no metric field reads
`datum[metricLabel]` as raw `undefined` with no defaulting; with
`totalSum = 0` the emitted increase value is `-undefined = NaN`, not 0, so a
missing numeric field is not treated as 0 in the emitted series values. -/
theorem waterfall_c7_counterexample :
    getCell (c7data.getD 0 []) "m" = none
    ∧ (transform c7cfg c7data).increase.getD 0 tokenPoint
        = { value := SVal.nan, originalValue := SVal.undef, totalSum := SVal.num 0 }
    ∧ ((transform c7cfg c7data).increase.getD 0 tokenPoint).value ≠ SVal.num 0 := by
  refine ⟨by decide, by decide, by decide⟩

/-- C7 (amended): the transform is total (no exception path); a missing or
null category label yields the reserved null-placeholder string and every
category-axis entry is a string or a number (the `String(value)` coercion
branch has no non-string/non-number inhabitant left in this data model); a
missing or null numeric cell reads as 0 in the non-cumulative start/end reads
and in the running-sum reads; but a cumulative non-total row whose metric
field is missing emits an `undefined`/`NaN` increase value rather than 0. -/
theorem waterfall_c7_amended (cfg : Config) (r : DataRecord)
    (rows : List DataRecord) (i : Nat) (k : String) :
    ((xRaw cfg r = none ∨ xRaw cfg r = some CellValue.nullv) →
        xCell cfg r = CellValue.str NULL_STRING)
    ∧ ((∃ s, xCell cfg r = CellValue.str s) ∨ (∃ q, xCell cfg r = CellValue.num q))
    ∧ ((getCell r k = none ∨ getCell r k = some CellValue.nullv) →
        readNum r (some k) = 0 ∧ asNumOr0 (getCell r k) = 0)
    ∧ (getCell (rows.getD i []) cfg.metricLabel = none →
        isTotalRow cfg (rows.getD i []) = false →
        ((cumRowOut cfg rows i).increase.value = SVal.undef
          ∨ (cumRowOut cfg rows i).increase.value = SVal.nan)) := by
  refine ⟨fun h => ?_, ?_, fun h => ?_, fun hmiss hnt => ?_⟩
  · rcases h with h | h <;> unfold xCell <;> rw [h]
  · unfold xCell
    rcases hx : xRaw cfg r with _ | c
    · exact Or.inl ⟨NULL_STRING, rfl⟩
    · rcases c with cs | cq | _
      · by_cases hcs : cs = ""
        · exact Or.inl ⟨NULL_STRING, by simp [hcs]⟩
        · exact Or.inl ⟨cs, by simp [hcs]⟩
      · by_cases hcq : cq = 0
        · exact Or.inl ⟨NULL_STRING, by simp [hcq]⟩
        · exact Or.inr ⟨cq, by simp [hcq]⟩
      · exact Or.inl ⟨NULL_STRING, rfl⟩
  · refine ⟨?_, ?_⟩ <;> rcases h with h | h <;> simp [readNum, asNumOr0, h]
  · have hcv : cumValue cfg rows i = SVal.undef ∨ cumValue cfg rows i = SVal.nan := by
      unfold cumValue
      split
      · rw [hmiss]
        exact Or.inr rfl
      · rw [hmiss]
        exact Or.inl rfl
    have hlt : svLt0 (cumValue cfg rows i) = false := by
      rcases hcv with h | h <;> rw [h] <;> rfl
    unfold cumRowOut
    rw [if_neg (by rw [hnt]; simp), if_neg (by rw [hlt]; simp)]
    dsimp only
    rcases hcv with h | h <;> rw [h]
    · split
      · exact Or.inl rfl
      · exact Or.inr rfl
    · split
      · exact Or.inr rfl
      · exact Or.inr rfl

def c7wcfg : Config := { xAxisName := "x", metricLabel := "m", totalMark := "T" }

/-- C7 witness: the amended theorem applied at an empty row (missing
category and missing metric). -/
theorem waterfall_c7_witness :
    xCell c7wcfg [] = CellValue.str NULL_STRING
    ∧ readNum [] (some "m") = 0
    ∧ ((cumRowOut c7wcfg [[]] 0).increase.value = SVal.undef
        ∨ (cumRowOut c7wcfg [[]] 0).increase.value = SVal.nan) := by
  have h := waterfall_c7_amended c7wcfg [] [[]] 0 "m"
  exact ⟨h.1 (Or.inl (by decide)), (h.2.2.1 (Or.inl (by decide))).1,
    h.2.2.2 (by decide) (by decide)⟩

/-! ### C8 -/

/-- C8: in the tooltip formatter, for a non-total entry in non-cumulative
mode whose data carries numeric `start`, `end` and `originalValue`: when
`start` is nonzero a "Change (%)" row equal to `(originalValue / start) *
100` formatted to two decimals is rendered; otherwise (for example `start =
0`) it falls back to a "Change" row with the formatted `originalValue`, so
the division is only performed under the nonzero-start guard. -/
theorem waterfall_c8 (params : List TParam) (breakdownName : Option String)
    (fmt : SVal → String) (xfmt : CellValue → Nat → String) (totalMark : String)
    (p : TParam) (s e a : Int)
    (hfind : params.find? tooltipPred = some p)
    (hnt : (p.seriesName == totalMark) = false)
    (hstart : p.data.start = SVal.num s)
    (hend : p.data.end_ = SVal.num e)
    (hov : p.data.originalValue = SVal.num a) :
    formatTooltip params breakdownName fmt xfmt totalMark true
      = TooltipResult.html
          ([("Start", fmt (SVal.num s))] ++ [("End", fmt (SVal.num e))] ++
            (if s ≠ 0 then
              [("Change (%)", toFixed2 ((a : Rat) / (s : Rat) * 100) ++ "%")]
             else [("Change", fmt (SVal.num a))]))
          (some (xfmt p.name p.dataIndex)) := by
  by_cases hs0 : s = 0
  · subst hs0
    simp [formatTooltip, hfind, hnt, hstart, hend, hov, svCoalesce, svIsNumberType,
      svStrictNe0, svPct, toFixed2P]
  · simp [formatTooltip, hfind, hnt, hstart, hend, hov, svCoalesce, svIsNumberType,
      svStrictNe0, svPct, toFixed2P, hs0]

def c8param : TParam :=
  { seriesName := "Increase", name := CellValue.str "A", dataIndex := 0,
    data := { value := SVal.num 20, originalValue := SVal.num 20, totalSum := SVal.num 120,
              start := SVal.num 100, end_ := SVal.num 120 } }

/-- C8 witness: the theorem applied at the spec's Scenario C entry
(start 100, end 120, change 20, hence 20.00%). -/
theorem waterfall_c8_witness :
    formatTooltip [c8param] none (fun v => "v") (fun c n => "t") "Total" true
      = TooltipResult.html
          ([("Start", "v")] ++ [("End", "v")] ++
            (if (100 : Int) ≠ 0 then
              [("Change (%)", toFixed2 ((20 : Rat) / (100 : Rat) * 100) ++ "%")]
             else [("Change", "v")]))
          (some "t") :=
  waterfall_c8 [c8param] none (fun v => "v") (fun c n => "t") "Total" c8param 100 120 20
    (by decide) (by decide) rfl rfl rfl

/-! ### C9 -/

/-- C9: whenever no candidate entry has a name different from the assist
marker and a non-sentinel value, the tooltip formatter returns the empty
render; and the later `if (!series) return NULL_STRING` branch is
unreachable for every input (the formatter never produces that exit). -/
theorem waterfall_c9 (params : List TParam) (breakdownName : Option String)
    (fmt : SVal → String) (xfmt : CellValue → Nat → String) (totalMark : String)
    (useNonCumulative : Bool) :
    (params.find? tooltipPred = none →
        formatTooltip params breakdownName fmt xfmt totalMark useNonCumulative
          = TooltipResult.empty)
    ∧ formatTooltip params breakdownName fmt xfmt totalMark useNonCumulative
        ≠ TooltipResult.nullStr := by
  constructor
  · intro h
    simp [formatTooltip, h]
  · rcases hf : params.find? tooltipPred with _ | p
    · simp [formatTooltip, hf]
    · simp only [formatTooltip, hf, Option.isNone_some, Bool.false_eq_true, if_false]
      split
      · split <;> simp
      · simp

/-- C9 witness: the theorem applied at an empty candidate list. -/
theorem waterfall_c9_witness :
    formatTooltip [] none (fun v => "v") (fun c n => "t") "Total" false
      = TooltipResult.empty
    ∧ formatTooltip [] none (fun v => "v") (fun c n => "t") "Total" false
        ≠ TooltipResult.nullStr :=
  ⟨(waterfall_c9 [] none (fun v => "v") (fun c n => "t") "Total" false).1 rfl,
    (waterfall_c9 [] none (fun v => "v") (fun c n => "t") "Total" false).2⟩

/-! ### C10 -/

/-- C10: in non-cumulative mode the input rows pass through one-to-one with
no grouping, aggregation or synthetic total-row insertion — the row sequence
is the input itself and the category axis has exactly one entry per input
row, each derived from its row in input order — and the `showTotal` option
has no effect on the output. -/
theorem waterfall_c10 (cfg : Config) (data : List DataRecord) (b1 b2 : Bool)
    (hnc : cfg.useNonCumulative = true) :
    transform { cfg with showTotal := b1 } data
      = transform { cfg with showTotal := b2 } data
    ∧ (transform cfg data).transformedData = data
    ∧ (transform cfg data).xAxisData = data.map (xCell cfg) := by
  have h1 : ∀ b : Bool, Config.useNonCumulative { cfg with showTotal := b } = true := by
    intro b
    simpa [Config.useNonCumulative] using hnc
  refine ⟨?_, ?_, ?_⟩
  · unfold transform
    rw [if_pos (h1 b1), if_pos (h1 b2)]
    rfl
  · unfold transform
    rw [if_pos hnc]
  · unfold transform
    rw [if_pos hnc]

def c10cfg : Config :=
  { xAxisName := "x", metricStartLabel := some "s", metricEndLabel := some "e",
    nonCumulative := true, totalMark := "T" }

def c10data : List DataRecord :=
  [[("x", CellValue.str "A"), ("s", CellValue.num 1), ("e", CellValue.num 2)]]

/-- C10 witness: the theorem applied at a concrete non-cumulative input. -/
theorem waterfall_c10_witness :
    transform { c10cfg with showTotal := true } c10data
      = transform { c10cfg with showTotal := false } c10data
    ∧ (transform c10cfg c10data).transformedData = c10data
    ∧ (transform c10cfg c10data).xAxisData = c10data.map (xCell c10cfg) :=
  waterfall_c10 c10cfg c10data true false (by decide)

end Waterfall
